import Mathlib

/-!
Verification of the search aggregation, caching and ranking engine of the
back-tripexplorer repository (src/services/attractions_service.py and
src/external_services.py), as a shallow embedding in Lean 4.

Conventions of the embedding:
* Python `None`/missing string values and empty strings are both "falsy"; we
  model optional strings as `String`, with the empty string standing for the
  falsy values, except where the code distinguishes `None` from other values
  (`price_level`), which is modelled with `Option`.
* Python floats (ratings, timestamps) are modelled as `ℚ` resp. `Int`:
  only their ordering is relevant to the verified code paths.
* Python `list.sort(key=...)` is a stable sort; it is modelled by
  `List.insertionSort` with the corresponding key order, which is stable.
* Fallible collaborator calls (the Google gateway, the Mongo repository) are
  modelled as `Except String` values passed as parameters; the `try/except`
  blocks of the code become total recovery functions.
-/

/-- One entry of a raw place's `address_components` list
(`comp.get('long_name')`, `comp.get('types', [])`). -/
structure AddressComponent where
  long_name : String := ""
  types : List String := []
deriving DecidableEq, Repr

/-- A raw place record as returned by the Google Places gateway (the subset of
keys read by `_map_place_to_attraction` and the merge code).  A missing or
`None` value of a string key is modelled by `""`; `rating` and
`user_ratings_total` carry the `place.get(key, 0)` default. -/
structure RawPlace where
  place_id : String := ""
  name : String := ""
  formatted_address : String := ""
  vicinity : String := ""
  address_components : List AddressComponent := []
  types : List String := []
  rating : ℚ := 0
  user_ratings_total : ℕ := 0
  price_level : Option Int := none
deriving DecidableEq, Repr

/-- The canonical attraction shape produced by
`AttractionsService._map_place_to_attraction` (the fields the verified
properties read; the remaining fields of the mapped dict are data-independent
constants or verbatim copies of the raw record). -/
structure Attraction where
  place_id : String := ""
  name : String := ""
  formatted_address : String := ""
  country : String := ""
  city : String := ""
  category : String := ""
  types : List String := []
  rating : ℚ := 0
  user_ratings_total : ℕ := 0
  price_level : Option Int := none
deriving DecidableEq, Repr

/-- The country/city extraction loop of `_map_place_to_attraction`
(attractions_service.py lines 41-48): iterate over the address components,
assigning `country` from a `country`-tagged component only while `country` is
falsy (it starts as the caller hint), and `city` from a `locality`- or
`postal_town`-tagged component only while `city` is falsy. -/
def extract_country_city : List AddressComponent → String → String → String × String
  | [], country, city => (country, city)
  | comp :: rest, country, city =>
    let country' := if comp.types.contains "country" && country == "" then comp.long_name else country
    let city' := if (comp.types.contains "locality" || comp.types.contains "postal_town") && city == "" then comp.long_name else city
    extract_country_city rest country' city'

/-- `AttractionsService._map_place_to_attraction(place, country_hint)`
(attractions_service.py lines 33-80) restricted to the fields of
`Attraction`.  `country` starts from the hint; `formatted_address` is
`place.get('formatted_address') or place.get('vicinity') or ''`; `category` is
`(place.get('types') or [None])[0] or ''`. -/
def map_place_to_attraction (place : RawPlace) (country_hint : String) : Attraction :=
  let cc := extract_country_city place.address_components country_hint ""
  { place_id := place.place_id
    name := place.name
    formatted_address := if place.formatted_address ≠ "" then place.formatted_address else place.vicinity
    country := cc.1
    city := cc.2
    category := match place.types with | [] => "" | t :: _ => t
    types := place.types
    rating := place.rating
    user_ratings_total := place.user_ratings_total
    price_level := place.price_level }

/-- Specification-side helper: the `long_name` of the first component that
carries `tag` and has a non-empty `long_name` (empty string when there is
none).  Used to characterise `extract_country_city`. -/
def first_tagged (p : AddressComponent → Bool) (comps : List AddressComponent) : String :=
  (((comps.filter (fun c => p c && c.long_name ≠ "")).head?).map
    (fun c => c.long_name)).getD ""

/-- Predicate for a `country`-tagged component. -/
def country_tagged (c : AddressComponent) : Bool := c.types.contains "country"

/-- Predicate for a `locality`- or `postal_town`-tagged component. -/
def city_tagged (c : AddressComponent) : Bool :=
  c.types.contains "locality" || c.types.contains "postal_town"

/-- Python substring test `needle in hay` on strings. -/
def substr (needle hay : String) : Bool := decide (needle.toList <:+: hay.toList)

/-- ASCII lowercasing of one character (`str.lower()` on the ASCII type tags
and vocabulary words of the code). -/
def lowerChar (c : Char) : Char :=
  if 'A' ≤ c ∧ c ≤ 'Z' then Char.ofNat (c.toNat + 32) else c

/-- Python `str.lower()` (ASCII). -/
def toLowerStr (s : String) : String := String.mk (s.toList.map lowerChar)

/-- Python `str.strip()`: drop leading and trailing whitespace. -/
def trimStr (s : String) : String :=
  String.mk
    (((s.toList.dropWhile Char.isWhitespace).reverse.dropWhile Char.isWhitespace).reverse)

/-- The tourist-profile type vocabulary (attractions_service.py lines 96 and 403). -/
def touristTypes : List String :=
  ["tourist_attraction", "point_of_interest", "museum", "art_gallery", "church", "park", "zoo", "amusement_park"]

/-- The local-profile type vocabulary (attractions_service.py lines 103 and 410). -/
def localTypes : List String :=
  ["restaurant", "cafe", "bar", "park", "gym", "store", "shopping_mall", "supermarket", "library", "movie_theater"]

/-- The pro-profile type vocabulary (attractions_service.py lines 110 and 417). -/
def proTypes : List String :=
  ["lodging", "establishment", "point_of_interest", "train_station", "airport", "gas_station", "bank", "atm"]

/-- The type-affinity count of the profile sort keys:
`sum(1 for t in (x.get('types') or []) if any(tt in t.lower() for tt in vocab))`
— the number of type tags of which some vocabulary word is a substring
(of the lowercased tag). -/
def typeAffinity (vocab : List String) (types : List String) : ℕ :=
  (types.filter (fun t => vocab.any (fun tt => substr tt (toLowerStr t)))).length

/-- Ascending lexicographic order on pairs (Python tuple comparison). -/
def pairLe (a b : ℚ × ℚ) : Prop :=
  a.1 < b.1 ∨ (a.1 = b.1 ∧ a.2 ≤ b.2)

instance : DecidableRel pairLe := fun a b => by unfold pairLe; exact inferInstance

/-- Ascending lexicographic order on triples (Python tuple comparison). -/
def tripleLe (a b : ℚ × ℚ × ℚ) : Prop :=
  a.1 < b.1 ∨ (a.1 = b.1 ∧ pairLe a.2 b.2)

instance : DecidableRel tripleLe := fun a b => by unfold tripleLe; exact inferInstance

/-- The sort key of the profile-based ranking branches: ascending order in
this key is exactly the Python tuple key
`(-affinity, -rating, -user_ratings_total)`. -/
def profileKey (vocab : List String) (x : Attraction) : ℚ × ℚ × ℚ :=
  (-(typeAffinity vocab x.types : ℚ), -x.rating, -(x.user_ratings_total : ℚ))

/-- The sort key of the filters-active ranking branch
(`(-rating, -user_ratings_total)`, attractions_service.py lines 397-400). -/
def genericKey (x : Attraction) : ℚ × ℚ :=
  (-x.rating, -(x.user_ratings_total : ℚ))

/-- Rank order relation of a profile branch. -/
def profileRel (vocab : List String) (a b : Attraction) : Prop :=
  tripleLe (profileKey vocab a) (profileKey vocab b)

instance (vocab : List String) : DecidableRel (profileRel vocab) := fun a b => by
  unfold profileRel; exact inferInstance

/-- Rank order relation of the filters-active branch. -/
def genericRel (a b : Attraction) : Prop :=
  pairLe (genericKey a) (genericKey b)

instance : DecidableRel genericRel := fun a b => by unfold genericRel; exact inferInstance

/-- The ranking stage of `AttractionsService.search`
(attractions_service.py lines 394-422): filters active → generic
rating/review sort; otherwise one stable sort per recognised profile, and no
sort at all for an unrecognised profile. -/
def rankResults (profile : String) (hasFilters : Bool) (l : List Attraction) : List Attraction :=
  if hasFilters then List.insertionSort genericRel l
  else if profile = "tourist" then List.insertionSort (profileRel touristTypes) l
  else if profile = "local" then List.insertionSort (profileRel localTypes) l
  else if profile = "pro" then List.insertionSort (profileRel proTypes) l
  else l

/-- The vocabulary a profile string selects in the no-filters ranking
branches (empty for an unrecognised profile, whose branch does not sort). -/
def profileVocab : String → List String
  | "tourist" => touristTypes
  | "local" => localTypes
  | "pro" => proTypes
  | _ => []

/-- The composite key that the active ranking branch of
`rankResults profile hasFilters` sorts by (constant first component when
filters are active, so that both branches share one key type). -/
def compositeKey (profile : String) (hasFilters : Bool) (x : Attraction) : ℚ × ℚ × ℚ :=
  if hasFilters then (0, genericKey x) else profileKey (profileVocab profile) x

/-- The profile sort of `AttractionsService.popular_by_country`
(attractions_service.py lines 95-116): identical branch structure and keys. -/
def popularSort (profile : String) (l : List Attraction) : List Attraction :=
  if profile = "tourist" then List.insertionSort (profileRel touristTypes) l
  else if profile = "local" then List.insertionSort (profileRel localTypes) l
  else if profile = "pro" then List.insertionSort (profileRel proTypes) l
  else l

/-- `AttractionsService.popular_by_country` (attractions_service.py lines
82-117) with the gateway response passed as the `places` parameter: map every
place with the country as hint, profile-sort, truncate to `limit`. -/
def popular_by_country (places : List RawPlace) (country : String) (limit : ℕ) (profile : String) : List Attraction :=
  let mapped := places.map (fun p => map_place_to_attraction p country)
  (popularSort profile mapped).take limit

/-- The truthy `place_id` set of a provider result list
(`{r.get('place_id') for r in google_results if r.get('place_id')}`,
attractions_service.py line 275). -/
def google_ids (google_results : List RawPlace) : List String :=
  (google_results.filter (fun r => r.place_id ≠ "")).map (fun r => r.place_id)

/-- The merge of the location-branch of `AttractionsService.search`
(attractions_service.py lines 275-300): collect the truthy `place_id`s of the
Google results, keep the Google results in order, then append those of the
first 10 Mongo results (`db_results[:10]`) whose `place_id` is not among
them, in their original order.  (The conversion of a Mongo document to the
raw dict shape is the identity on the fields of `RawPlace`.) -/
def merge_results (google_results db_results : List RawPlace) : List RawPlace :=
  google_results ++
    (db_results.take 10).filter (fun d => !(google_ids google_results).contains d.place_id)

/-- `GooglePlacesService.search_places` failure behaviour
(external_services.py lines 22-75): the whole body is wrapped in
`try/except`, any API error (and an unconfigured client) yields `[]`.  The
outcome of the underlying API call is the parameter. -/
def search_places_recover (outcome : Except String (List RawPlace)) : List RawPlace :=
  match outcome with
  | .ok results => results
  | .error _ => []

/-- The Mongo branch of `AttractionsService.search`
(attractions_service.py lines 259-271): `db_results` starts as `[]`, the
repository call is attempted inside `try/except`, and any exception leaves
`db_results = []`. -/
def db_results_recover (outcome : Except String (List RawPlace)) : List RawPlace :=
  match outcome with
  | .ok results => results
  | .error _ => []

/-- The data flow of the coordinates branch of `AttractionsService.search`
(attractions_service.py lines 259-333): recover each source, merge, then map
every record with the country hint. -/
def location_branch (provider store : Except String (List RawPlace)) (country_hint : String) : List Attraction :=
  (merge_results (search_places_recover provider) (db_results_recover store)).map
    (fun p => map_place_to_attraction p country_hint)

/-- `GooglePlacesService.search_attractions_by_country` failure behaviour
(external_services.py lines 105-141): wrapped in `try/except`, any error
yields `[]`. -/
def search_attractions_by_country_recover (outcome : Except String (List RawPlace)) : List RawPlace :=
  match outcome with
  | .ok results => results
  | .error _ => []

/-- The minimum-rating filter of `AttractionsService.search`
(attractions_service.py lines 358-368): only applied when the parsed
threshold is `> 0`; keeps `p.get('rating', 0) >= min_rating_value`. -/
def filter_min_rating (min_rating_value : ℚ) (l : List Attraction) : List Attraction :=
  if 0 < min_rating_value then l.filter (fun p => min_rating_value ≤ p.rating) else l

/-- The maximum-price-level filter of `AttractionsService.search`
(attractions_service.py lines 370-382): only applied when the parsed ceiling
is `< 200`; keeps places with `price_level <= price_level_value` or with no
`price_level`. -/
def filter_price_level (price_level_value : Int) (l : List Attraction) : List Attraction :=
  if price_level_value < 200 then
    l.filter (fun p => match p.price_level with
      | some v => v ≤ price_level_value
      | none => true)
  else l

/-- The in-memory query cache `_search_cache`: a string-keyed insertion-ordered
map (a Python dict) from cache key to `(results, stored-at time)`.  The
results payload is a type parameter; timestamps are modelled as `Int`
seconds. -/
abbrev CacheState (β : Type) := List (String × β × Int)

/-- `_CACHE_TTL = 5 * 60` (attractions_service.py line 14). -/
def cacheTTL : Int := 5 * 60

/-- Python dict assignment `_search_cache[cache_key] = (results, now)`:
update in place when the key is present (keeping its position), else append. -/
def cache_set {β : Type} (c : CacheState β) (k : String) (v : β × Int) : CacheState β :=
  if c.any (fun p => p.1 == k) then
    c.map (fun p => if p.1 == k then (k, v) else p)
  else c ++ [(k, v)]

/-- The cache probe of `AttractionsService.search`
(attractions_service.py lines 140-145): a present entry is served only while
`now - cache_time < _CACHE_TTL`; a stale or absent entry silently falls
through to a fresh search (`none` here). -/
def cache_lookup {β : Type} (c : CacheState β) (k : String) (now : Int) : Option β :=
  match c.find? (fun p => p.1 == k) with
  | none => none
  | some p => if now - p.2.2 < cacheTTL then some p.2.1 else none

/-- The time order used by the eviction sort
(`sorted(_search_cache.items(), key=lambda x: x[1][1])`). -/
def timeRel {β : Type} (p q : String × β × Int) : Prop := p.2.2 ≤ q.2.2

instance {β : Type} : DecidableRel (@timeRel β) := fun p q => by
  unfold timeRel; exact inferInstance

/-- The eviction block of `AttractionsService.search`
(attractions_service.py lines 426-429): sort the entries by stored-at time
(Python's sort is stable; modelled by the stable `insertionSort`), delete the
keys of all but the newest 50 (`sorted_cache[:-50]`). -/
def cache_evict {β : Type} (c : CacheState β) : CacheState β :=
  let sorted_cache := List.insertionSort timeRel c
  let doomed := (sorted_cache.take (c.length - 50)).map (fun p => p.1)
  c.filter (fun p => !doomed.contains p.1)

/-- The store of the main (post-ranking) path of `AttractionsService.search`
(attractions_service.py lines 424-429): assign, then evict down to 50 entries
whenever the cache holds more than 50. -/
def cache_store_evict {β : Type} (c : CacheState β) (k : String) (v : β × Int) : CacheState β :=
  let c' := cache_set c k v
  if 50 < c'.length then cache_evict c' else c'

/-- The store of the early-return paths of `AttractionsService.search`
(attractions_service.py lines 231, 237, 244 and 306): a bare assignment with
no eviction. -/
def cache_store_plain {β : Type} (c : CacheState β) (k : String) (v : β × Int) : CacheState β :=
  cache_set c k v

/-- A JSON-representable query parameter value (the value shapes exercised by
the verified properties: strings and integers). -/
inductive JValue where
  | str (s : String)
  | int (n : Int)
deriving DecidableEq, Repr

/-- A raw incoming parameter map (a Python dict: ordered keys). -/
abbrev Params := List (String × JValue)

/-- `params.get(k)`. -/
def lookupParam (p : Params) (k : String) : Option JValue :=
  (p.find? (fun kv => kv.1 == k)).map (fun kv => kv.2)

/-- Python truthiness of a parameter value. -/
def truthy : JValue → Bool
  | .str s => !(s == "")
  | .int n => !(n == 0)

/-- Python `params.get(k1) or params.get(k2)`. -/
def orElseTruthy (a b : Option JValue) : Option JValue :=
  match a with
  | some v => if truthy v then some v else b
  | none => b

/-- Value of an all-digit character list (helper of the numeric parsers). -/
def digitsVal (cs : List Char) : ℕ :=
  cs.foldl (fun n c => n * 10 + (c.toNat - 48)) 0

/-- Digit-sequence recogniser for `int(...)`: nonempty, all digits. -/
def allDigits (cs : List Char) : Bool :=
  !(cs.isEmpty) && cs.all Char.isDigit

/-- Python `int(str)` (the decimal forms; other accepted spellings are not
exercised by the verified properties). -/
def parseIntStr (s : String) : Option Int :=
  match (trimStr s).toList with
  | '-' :: rest => if allDigits rest then some (-(digitsVal rest : Int)) else none
  | '+' :: rest => if allDigits rest then some ((digitsVal rest : Int)) else none
  | cs => if allDigits cs then some ((digitsVal cs : Int)) else none

/-- Unsigned decimal literal with optional fraction part, as accepted by
Python `float(str)` (exponent forms are not exercised here). -/
def parseDecimal (cs : List Char) : Option ℚ :=
  let intPart := cs.takeWhile Char.isDigit
  let rest := cs.dropWhile Char.isDigit
  match rest with
  | [] => if intPart.isEmpty then none else some ((digitsVal intPart : ℚ))
  | '.' :: frac =>
    if frac.all Char.isDigit && !(intPart.isEmpty && frac.isEmpty) then
      some ((digitsVal intPart : ℚ) + (digitsVal frac : ℚ) / (10 : ℚ) ^ frac.length)
    else none
  | _ => none

/-- Python `float(value)` on a parameter value. -/
def parseFloat? : JValue → Option ℚ
  | .int n => some ((n : ℚ))
  | .str s =>
    match (trimStr s).toList with
    | '-' :: rest => (parseDecimal rest).map (fun x => -x)
    | '+' :: rest => parseDecimal rest
    | cs => parseDecimal cs

/-- Python `int(value)` on a parameter value. -/
def parseInt? : JValue → Option Int
  | .int n => some n
  | .str s => parseIntStr s

/-- The normalized query-parameter struct assembled by
`AttractionsService.search` (attractions_service.py lines 147-193): defaulted
profile, stripped text, raw country/city/category values, parsed coordinates
(`None` on any parse failure), parsed radius, and the effective (alias-
coalesced, truthiness-gated, parsed) minimum rating and price-level
ceiling. -/
structure NormalizedQuery where
  profile : JValue
  q : String
  country : Option JValue
  city : Option JValue
  location : Option (ℚ × ℚ)
  radius : Option Int
  category : Option JValue
  min_rating : Option ℚ
  price_level : Option Int
deriving DecidableEq, Repr

/-- `params.get('profile', 'tourist')` (attractions_service.py line 147). -/
def profileParam (p : Params) : JValue :=
  (lookupParam p "profile").getD (.str "tourist")

/-- Normalization of a raw parameter map, per the extraction block of
`AttractionsService.search` (attractions_service.py lines 147-193). -/
def normalizeParams (p : Params) : NormalizedQuery :=
  { profile := profileParam p
    q := match lookupParam p "q" with | some (.str s) => trimStr s | _ => ""
    country := lookupParam p "country"
    city := lookupParam p "city"
    location :=
      match lookupParam p "lat", lookupParam p "lng" with
      | some v, some w =>
        match parseFloat? v, parseFloat? w with
        | some la, some lo => some (la, lo)
        | _, _ => none
      | _, _ => none
    radius := (lookupParam p "radius_m").bind parseInt?
    category := lookupParam p "category"
    min_rating :=
      match orElseTruthy (lookupParam p "min_rating") (lookupParam p "minRating") with
      | some v => if truthy v then parseFloat? v else none
      | none => none
    price_level :=
      match orElseTruthy (lookupParam p "price_level") (lookupParam p "maxPrice") with
      | some v => if truthy v then parseInt? v else none
      | none => none }

/-- JSON string escaping (quote and backslash; the parameter strings of the
verified properties contain no control characters). -/
def escapeJsonChars (s : String) : String :=
  String.mk (s.toList.foldr
    (fun c acc =>
      if c = '"' then '\\' :: '"' :: acc
      else if c = '\\' then '\\' :: '\\' :: acc
      else c :: acc) [])

/-- JSON rendering of one value, as `json.dumps` renders it. -/
def jsonOfValue : JValue → String
  | .str s => "\"" ++ escapeJsonChars s ++ "\""
  | .int n => toString n

/-- Key order used by `json.dumps(..., sort_keys=True)`. -/
def keyRel (a b : String × JValue) : Prop := a.1 ≤ b.1

instance : DecidableRel keyRel := fun a b => by unfold keyRel; exact inferInstance

instance : IsTotal (String × JValue) keyRel := ⟨fun a b => le_total a.1 b.1⟩

instance : IsTrans (String × JValue) keyRel := ⟨fun _ _ _ h1 h2 => le_trans h1 h2⟩

/-- `json.dumps(params, sort_keys=True)` (attractions_service.py line 122):
keys sorted, `", "` between members, `": "` after each key. -/
def json_dumps_sorted (p : Params) : String :=
  let sorted := List.insertionSort keyRel p
  "\x7b" ++ String.intercalate ", "
    (sorted.map (fun kv => jsonOfValue (.str kv.1) ++ ": " ++ jsonOfValue kv.2)) ++ "\x7d"

/-- Truncate to an unsigned 32-bit value. -/
def u32 (x : ℕ) : ℕ := x % 4294967296

/-- 32-bit left rotation (argument below `2 ^ 32`). -/
def rotl32 (x n : ℕ) : ℕ := u32 (x <<< n) ||| (x >>> (32 - n))

/-- The MD5 sine-derived constant table (RFC 1321). -/
def md5K : List ℕ :=
  [0xd76aa478, 0xe8c7b756, 0x242070db, 0xc1bdceee,
   0xf57c0faf, 0x4787c62a, 0xa8304613, 0xfd469501,
   0x698098d8, 0x8b44f7af, 0xffff5bb1, 0x895cd7be,
   0x6b901122, 0xfd987193, 0xa679438e, 0x49b40821,
   0xf61e2562, 0xc040b340, 0x265e5a51, 0xe9b6c7aa,
   0xd62f105d, 0x02441453, 0xd8a1e681, 0xe7d3fbc8,
   0x21e1cde6, 0xc33707d6, 0xf4d50d87, 0x455a14ed,
   0xa9e3e905, 0xfcefa3f8, 0x676f02d9, 0x8d2a4c8a,
   0xfffa3942, 0x8771f681, 0x6d9d6122, 0xfde5380c,
   0xa4beea44, 0x4bdecfa9, 0xf6bb4b60, 0xbebfbc70,
   0x289b7ec6, 0xeaa127fa, 0xd4ef3085, 0x04881d05,
   0xd9d4d039, 0xe6db99e5, 0x1fa27cf8, 0xc4ac5665,
   0xf4292244, 0x432aff97, 0xab9423a7, 0xfc93a039,
   0x655b59c3, 0x8f0ccc92, 0xffeff47d, 0x85845dd1,
   0x6fa87e4f, 0xfe2ce6e0, 0xa3014314, 0x4e0811a1,
   0xf7537e82, 0xbd3af235, 0x2ad7d2bb, 0xeb86d391]

/-- The MD5 per-round shift amounts (RFC 1321). -/
def md5S : List ℕ :=
  [7, 12, 17, 22, 7, 12, 17, 22, 7, 12, 17, 22, 7, 12, 17, 22,
   5, 9, 14, 20, 5, 9, 14, 20, 5, 9, 14, 20, 5, 9, 14, 20,
   4, 11, 16, 23, 4, 11, 16, 23, 4, 11, 16, 23, 4, 11, 16, 23,
   6, 10, 15, 21, 6, 10, 15, 21, 6, 10, 15, 21, 6, 10, 15, 21]

/-- The MD5 round functions. -/
def md5F (i b c d : ℕ) : ℕ :=
  if i < 16 then (b &&& c) ||| ((b ^^^ 0xffffffff) &&& d)
  else if i < 32 then (d &&& b) ||| ((d ^^^ 0xffffffff) &&& c)
  else if i < 48 then b ^^^ c ^^^ d
  else c ^^^ (b ||| (d ^^^ 0xffffffff))

/-- The MD5 message-word schedule. -/
def md5G (i : ℕ) : ℕ :=
  if i < 16 then i
  else if i < 32 then (5 * i + 1) % 16
  else if i < 48 then (3 * i + 5) % 16
  else (7 * i) % 16

/-- One MD5 round on the state `(a, b, c, d)` with message words `m`. -/
def md5Round (m : List ℕ) (st : ℕ × ℕ × ℕ × ℕ) (i : ℕ) : ℕ × ℕ × ℕ × ℕ :=
  match st with
  | (a, b, c, d) =>
    let f := u32 (md5F i b c d + a + md5K.getD i 0 + m.getD (md5G i) 0)
    (d, u32 (b + rotl32 f (md5S.getD i 0)), b, c)

/-- Process one 64-byte block (given as its 16 little-endian words). -/
def md5Block (st : ℕ × ℕ × ℕ × ℕ) (m : List ℕ) : ℕ × ℕ × ℕ × ℕ :=
  match st, (List.range 64).foldl (md5Round m) st with
  | (a0, b0, c0, d0), (a, b, c, d) => (u32 (a0 + a), u32 (b0 + b), u32 (c0 + c), u32 (d0 + d))

/-- The 16 little-endian 32-bit words of a 64-byte block. -/
def md5Words (block : List ℕ) : List ℕ :=
  (List.range 16).map (fun j =>
    block.getD (4 * j) 0 + 256 * block.getD (4 * j + 1) 0 +
      65536 * block.getD (4 * j + 2) 0 + 16777216 * block.getD (4 * j + 3) 0)

/-- MD5 padding: `0x80`, zeros to 56 mod 64, then the bit length as eight
little-endian bytes. -/
def md5Pad (msg : List ℕ) : List ℕ :=
  let z := (56 + 64 - (msg.length + 1) % 64) % 64
  msg ++ [128] ++ List.replicate z 0 ++
    (List.range 8).map (fun j => ((msg.length * 8) >>> (8 * j)) % 256)

/-- MD5 digest (16 bytes) of a byte sequence. -/
def md5Bytes (msg : List ℕ) : List ℕ :=
  let padded := md5Pad msg
  let st := (List.range (padded.length / 64)).foldl
    (fun st i => md5Block st (md5Words ((padded.drop (64 * i)).take 64)))
    (0x67452301, 0xefcdab89, 0x98badcfe, 0x10325476)
  match st with
  | (a, b, c, d) =>
    (List.range 4).map (fun j => (a >>> (8 * j)) % 256) ++
    (List.range 4).map (fun j => (b >>> (8 * j)) % 256) ++
    (List.range 4).map (fun j => (c >>> (8 * j)) % 256) ++
    (List.range 4).map (fun j => (d >>> (8 * j)) % 256)

/-- A lowercase hexadecimal digit. -/
def hexChar (n : ℕ) : Char := "0123456789abcdef".toList.getD n '0'

/-- Lowercase hex rendering of a byte sequence (`hashlib...hexdigest()`). -/
def bytesToHex (bs : List ℕ) : String :=
  String.mk (bs.foldr (fun b acc => hexChar (b / 16) :: hexChar (b % 16) :: acc) [])

/-- The UTF-8 bytes of a string; the serialized parameter strings of the
verified properties are ASCII, where UTF-8 bytes and code points agree. -/
def strBytes (s : String) : List ℕ := s.toList.map Char.toNat

/-- `hashlib.md5(text.encode()).hexdigest()`. -/
def md5Hex (s : String) : String := bytesToHex (md5Bytes (strBytes s))

/-- `AttractionsService._generate_cache_key(params)`
(attractions_service.py lines 119-123): the MD5 hex digest of the sorted-key
JSON rendering of the raw parameter map. -/
def generate_cache_key (p : Params) : String := md5Hex (json_dumps_sorted p)

/-- Distinct-keys predicate for the cache (a Python dict always satisfies
it; association lists model the dict). -/
def NodupKeys {β : Type} (c : CacheState β) : Prop :=
  (c.map (fun p => p.1)).Nodup

/-- Fingerprint i of the cache scenarios ("k0", "k1", ...). -/
def scenKey (i : ℕ) : String := "k" ++ toString i

/-- Sixty stores of distinct fingerprints at increasing times through the
main (evicting) store path. -/
def evictScenario : CacheState Unit :=
  (List.range 60).foldl (fun c i => cache_store_evict c (scenKey i) ((), (i : Int))) []

/-- Sixty stores of distinct fingerprints at increasing times through the
early-return (non-evicting) store path. -/
def plainScenario : CacheState Unit :=
  (List.range 60).foldl (fun c i => cache_store_plain c (scenKey i) ((), (i : Int))) []

/-- A raw place whose first address component is tagged `country` with
long name "France". -/
def cexPlaceFR : RawPlace :=
  { address_components := [{ long_name := "France", types := ["country"] }] }

/-- Eleven local-store records with distinct non-empty place ids. -/
def elevenPlaces : List RawPlace :=
  (List.range 11).map (fun i => { place_id := "p" ++ toString i : RawPlace })

/-- Price-level fixtures of the filter example `[0, 1, 2, None, 3]`. -/
def pl0 : Attraction := { price_level := some 0 }

def pl1 : Attraction := { price_level := some 1 }

def pl2 : Attraction := { price_level := some 2 }

def plNone : Attraction := { price_level := none }

def pl3 : Attraction := { price_level := some 3 }

/-- The filter example list with price levels `[0, 1, 2, None, 3]`. -/
def priceExample : List Attraction := [pl0, pl1, pl2, plNone, pl3]

theorem pairLe_refl (a : ℚ × ℚ) : pairLe a a := Or.inr ⟨rfl, le_refl _⟩

theorem tripleLe_refl (a : ℚ × ℚ × ℚ) : tripleLe a a := Or.inr ⟨rfl, pairLe_refl _⟩

theorem not_pairLe_ne {a b : ℚ × ℚ} (h : ¬ pairLe a b) : ¬ (b = a) := by
  intro e
  exact h (e ▸ pairLe_refl b)

theorem not_tripleLe_ne {a b : ℚ × ℚ × ℚ} (h : ¬ tripleLe a b) : ¬ (b = a) := by
  intro e
  exact h (e ▸ tripleLe_refl b)

theorem filter_orderedInsert_neg {α κ : Type} [DecidableEq κ]
    (r : α → α → Prop) [DecidableRel r] (key : α → κ) (k : κ) (a : α)
    (ha : ¬ (key a = k)) :
    ∀ m : List α,
      (List.orderedInsert r a m).filter (fun x => decide (key x = k)) =
        m.filter (fun x => decide (key x = k)) := by
  intro m
  induction m with
  | nil => simp [List.orderedInsert, ha]
  | cons b t ih =>
    by_cases h : r a b
    · simp [List.orderedInsert, if_pos h, List.filter_cons, ha]
    · simp only [List.orderedInsert, if_neg h, List.filter_cons, ih]

theorem filter_orderedInsert_pos {α κ : Type} [DecidableEq κ]
    (r : α → α → Prop) [DecidableRel r] (key : α → κ) (k : κ) (a : α)
    (ha : key a = k) (H : ∀ y, ¬ r a y → ¬ (key y = key a)) :
    ∀ m : List α,
      (List.orderedInsert r a m).filter (fun x => decide (key x = k)) =
        a :: m.filter (fun x => decide (key x = k)) := by
  intro m
  induction m with
  | nil => simp [List.orderedInsert, ha]
  | cons b t ih =>
    by_cases h : r a b
    · simp [List.orderedInsert, if_pos h, List.filter_cons, ha]
    · have hb : ¬ (key b = k) := by
        intro e
        exact H b h (e.trans ha.symm)
      simp only [List.orderedInsert, if_neg h, List.filter_cons, ih, hb]
      simp [hb]

theorem filter_insertionSort_stable {α κ : Type} [DecidableEq κ]
    (r : α → α → Prop) [DecidableRel r] (key : α → κ)
    (H : ∀ a y, ¬ r a y → ¬ (key y = key a)) (k : κ) :
    ∀ l : List α,
      (List.insertionSort r l).filter (fun x => decide (key x = k)) =
        l.filter (fun x => decide (key x = k)) := by
  intro l
  induction l with
  | nil => rfl
  | cons a t ih =>
    by_cases ha : key a = k
    · rw [List.insertionSort, filter_orderedInsert_pos r key k a ha (H a), ih,
        List.filter_cons]
      simp [ha]
    · rw [List.insertionSort, filter_orderedInsert_neg r key k a ha, ih,
        List.filter_cons]
      simp [ha]

theorem profileRel_key_H (vocab : List String) :
    ∀ a y : Attraction, ¬ profileRel vocab a y →
      ¬ (profileKey vocab y = profileKey vocab a) :=
  fun _ _ h => not_tripleLe_ne h

theorem genericRel_key_H :
    ∀ a y : Attraction, ¬ genericRel a y →
      ¬ ((((0 : ℚ), genericKey y) : ℚ × ℚ × ℚ) = ((0 : ℚ), genericKey a)) := by
  intro a y h e
  have e2 : genericKey y = genericKey a := by
    have := congrArg (fun p : ℚ × ℚ × ℚ => p.2) e
    simpa using this
  exact not_pairLe_ne h e2

/-- Claim C9: ranking is a stable permutation — the ranked output is a
permutation of the input (nothing dropped or added; the embedding is a total
function, so ranking cannot raise), and elements that are equal under the
active composite sort key keep their relative order (their subsequence is
unchanged), for every filter state and profile. -/
theorem ranking_stable_permutation (l : List Attraction) (profile : String)
    (hasFilters : Bool) (k : ℚ × ℚ × ℚ) :
    (rankResults profile hasFilters l).Perm l ∧
    (rankResults profile hasFilters l).filter
        (fun x => decide (compositeKey profile hasFilters x = k)) =
      l.filter (fun x => decide (compositeKey profile hasFilters x = k)) := by
  cases hasFilters with
  | true =>
    constructor
    · simpa [rankResults] using List.perm_insertionSort genericRel l
    · have := filter_insertionSort_stable genericRel
        (fun x => (((0 : ℚ), genericKey x) : ℚ × ℚ × ℚ)) genericRel_key_H k l
      simpa [rankResults, compositeKey] using this
  | false =>
    by_cases h1 : profile = "tourist"
    · subst h1
      constructor
      · simpa [rankResults] using List.perm_insertionSort (profileRel touristTypes) l
      · have := filter_insertionSort_stable (profileRel touristTypes)
          (profileKey touristTypes) (profileRel_key_H touristTypes) k l
        simpa [rankResults, compositeKey, profileVocab] using this
    · by_cases h2 : profile = "local"
      · subst h2
        constructor
        · simpa [rankResults] using List.perm_insertionSort (profileRel localTypes) l
        · have := filter_insertionSort_stable (profileRel localTypes)
            (profileKey localTypes) (profileRel_key_H localTypes) k l
          simpa [rankResults, compositeKey, profileVocab] using this
      · by_cases h3 : profile = "pro"
        · subst h3
          constructor
          · simpa [rankResults] using List.perm_insertionSort (profileRel proTypes) l
          · have := filter_insertionSort_stable (profileRel proTypes)
              (profileKey proTypes) (profileRel_key_H proTypes) k l
            simpa [rankResults, compositeKey, profileVocab] using this
        · constructor
          · simp [rankResults, h1, h2, h3]
          · simp [rankResults, h1, h2, h3]

/-- Claim C10: when no filters are active and the profile string is none of
"tourist", "local", "pro", no ranking is applied — `search`'s ranking stage
returns its input unchanged and `popular_by_country` returns the mapped
provider results in provider order (truncated to the limit); an absent
profile parameter, by contrast, defaults to "tourist". -/
theorem unrecognized_profile_no_ranking (l : List Attraction) (profile : String)
    (places : List RawPlace) (country : String) (limit : ℕ)
    (h1 : profile ≠ "tourist") (h2 : profile ≠ "local") (h3 : profile ≠ "pro") :
    rankResults profile false l = l ∧
    popular_by_country places country limit profile =
      (places.map (fun p => map_place_to_attraction p country)).take limit ∧
    profileParam [] = JValue.str "tourist" := by
  refine ⟨?_, ?_, rfl⟩
  · simp [rankResults, h1, h2, h3]
  · simp [popular_by_country, popularSort, h1, h2, h3]

/-- Witness for `unrecognized_profile_no_ranking` at the concrete profile
"explorer". -/
theorem unrecognized_profile_no_ranking_witness :
    ("explorer" ≠ "tourist" ∧ "explorer" ≠ "local" ∧ "explorer" ≠ "pro") ∧
    (rankResults "explorer" false priceExample = priceExample ∧
      popular_by_country elevenPlaces "France" 3 "explorer" =
        (elevenPlaces.map (fun p => map_place_to_attraction p "France")).take 3 ∧
      profileParam [] = JValue.str "tourist") :=
  ⟨⟨by decide, by decide, by decide⟩,
    unrecognized_profile_no_ranking priceExample "explorer" elevenPlaces "France" 3
      (by decide) (by decide) (by decide)⟩

theorem find?_map_update {β : Type} (k : String) (v : β × Int) :
    ∀ c : CacheState β, c.any (fun p => p.1 == k) = true →
      (c.map (fun p => if p.1 == k then (k, v) else p)).find? (fun p => p.1 == k) =
        some (k, v) := by
  intro c
  induction c with
  | nil => intro h; simp at h
  | cons p t ih =>
    intro h
    by_cases hp : p.1 == k
    · simp [List.find?, hp]
    · have ht : t.any (fun p => p.1 == k) = true := by
        simpa [List.any_cons, hp] using h
      have hp' : (p.1 == k) = false := Bool.eq_false_iff.mpr hp
      simp only [List.map_cons, if_neg hp, List.find?]
      rw [hp']
      exact ih ht

theorem find?_append_new {β : Type} (k : String) (v : β × Int) :
    ∀ c : CacheState β, c.any (fun p => p.1 == k) = false →
      (c ++ [(k, v)]).find? (fun p => p.1 == k) = some (k, v) := by
  intro c
  induction c with
  | nil => simp [List.find?]
  | cons p t ih =>
    intro h
    have hp : (p.1 == k) = false := by
      by_contra hc
      simp [List.any_cons, eq_true_of_ne_false hc] at h
    have ht : t.any (fun p => p.1 == k) = false := by
      simpa [List.any_cons, hp] using h
    simp only [List.cons_append, List.find?]
    rw [hp]
    exact ih ht

theorem find?_cache_set {β : Type} (c : CacheState β) (k : String) (v : β × Int) :
    (cache_set c k v).find? (fun p => p.1 == k) = some (k, v) := by
  unfold cache_set
  by_cases hany : c.any (fun p => p.1 == k)
  · rw [if_pos hany]
    exact find?_map_update k v c hany
  · rw [if_neg hany]
    exact find?_append_new k v c (Bool.eq_false_iff.mpr hany)

/-- Claim C5: the cache TTL is 300 seconds; an entry stored at time `T` is
served by a lookup at any time with `now - T < 300` (in particular `T + 299`)
and silently treated as not-found from 300 seconds on (in particular
`T + 301`); a lookup on an empty cache is silently not-found.  (Capacity
eviction is a separate concern, settled by the capacity claim.) -/
theorem cache_ttl_semantics {β : Type} (c : CacheState β) (k : String) (r : β)
    (T now : Int) :
    cacheTTL = 300 ∧
    cache_lookup (cache_set c k (r, T)) k now =
      (if now - T < 300 then some r else none) ∧
    cache_lookup (cache_set c k (r, T)) k (T + 299) = some r ∧
    cache_lookup (cache_set c k (r, T)) k (T + 301) = none := by
  have hmain : ∀ t : Int, cache_lookup (cache_set c k (r, T)) k t =
      (if t - T < 300 then some r else none) := by
    intro t
    unfold cache_lookup
    rw [find?_cache_set]
    rfl
  refine ⟨rfl, hmain now, ?_, ?_⟩
  · rw [hmain (T + 299), if_pos (by omega)]
  · rw [hmain (T + 301), if_neg (by omega)]

theorem first_tagged_cons_pos (p : AddressComponent → Bool) (comp : AddressComponent)
    (rest : List AddressComponent) (hp : p comp = true) (hl : comp.long_name ≠ "") :
    first_tagged p (comp :: rest) = comp.long_name := by
  simp [first_tagged, List.filter_cons, hp, hl]

theorem first_tagged_cons_neg (p : AddressComponent → Bool) (comp : AddressComponent)
    (rest : List AddressComponent) (h : (p comp && decide (comp.long_name ≠ "")) = false) :
    first_tagged p (comp :: rest) = first_tagged p rest := by
  simp only [first_tagged, List.filter_cons, h, Bool.false_eq_true, if_false]

theorem extract_country_acc :
    ∀ (comps : List AddressComponent) (country city : String), country ≠ "" →
      (extract_country_city comps country city).1 = country := by
  intro comps
  induction comps with
  | nil => intro country city _; rfl
  | cons comp rest ih =>
    intro country city h
    have hb : (country == "") = false := by
      simpa using h
    simp only [extract_country_city, hb, Bool.and_false, Bool.false_eq_true, if_false]
    exact ih country _ h

theorem extract_city_acc :
    ∀ (comps : List AddressComponent) (country city : String), city ≠ "" →
      (extract_country_city comps country city).2 = city := by
  intro comps
  induction comps with
  | nil => intro country city _; rfl
  | cons comp rest ih =>
    intro country city h
    have hb : (city == "") = false := by
      simpa using h
    simp only [extract_country_city, hb, Bool.and_false, Bool.false_eq_true, if_false]
    exact ih _ city h

theorem extract_country_none :
    ∀ (comps : List AddressComponent) (city : String),
      (extract_country_city comps "" city).1 = first_tagged country_tagged comps := by
  intro comps
  induction comps with
  | nil => intro city; rfl
  | cons comp rest ih =>
    intro city
    simp only [extract_country_city, beq_self_eq_true, Bool.and_true]
    by_cases hc : comp.types.contains "country"
    · rw [if_pos hc]
      by_cases hl : comp.long_name = ""
      · rw [hl, ih]
        rw [first_tagged_cons_neg country_tagged comp rest (by simp [country_tagged, hl])]
      · rw [extract_country_acc rest comp.long_name _ hl,
          first_tagged_cons_pos country_tagged comp rest hc hl]
    · rw [if_neg hc, ih]
      rw [first_tagged_cons_neg country_tagged comp rest
        (by simp only [country_tagged, Bool.eq_false_iff.mpr hc, Bool.false_and])]

theorem extract_city_none :
    ∀ (comps : List AddressComponent) (country : String),
      (extract_country_city comps country "").2 = first_tagged city_tagged comps := by
  intro comps
  induction comps with
  | nil => intro country; rfl
  | cons comp rest ih =>
    intro country
    simp only [extract_country_city, beq_self_eq_true, Bool.and_true]
    by_cases hc : (comp.types.contains "locality" || comp.types.contains "postal_town")
    · rw [if_pos hc]
      by_cases hl : comp.long_name = ""
      · rw [hl, ih]
        rw [first_tagged_cons_neg city_tagged comp rest (by simp [city_tagged, hl])]
      · rw [extract_city_acc rest _ comp.long_name hl,
          first_tagged_cons_pos city_tagged comp rest hc hl]
    · rw [if_neg hc, ih]
      rw [first_tagged_cons_neg city_tagged comp rest
        (by simp only [city_tagged, Bool.eq_false_iff.mpr hc, Bool.false_and])]

/-- Counterexample to claim C2 as stated: for a raw place whose first (and
only) address component is tagged "country" with long name "France" and a
caller hint "Germany", the mapper keeps the hint — it does not take the
country from the address component. -/
theorem mapper_hint_precedence_cex :
    country_tagged { long_name := "France", types := ["country"] } = true ∧
    (map_place_to_attraction cexPlaceFR "Germany").country = "Germany" ∧
    ¬ ((map_place_to_attraction cexPlaceFR "Germany").country = "France") := by
  refine ⟨rfl, rfl, by decide⟩

/-- Claim C2 (amended): the mapper takes the country from the caller-supplied
hint whenever the hint is non-empty; only with an empty (absent) hint is the
country the long name of the first country-tagged component with a non-empty
long name (empty if none).  The city is always the long name of the first
locality/postal_town-tagged component with a non-empty long name — there is
no hint fallback for the city. -/
theorem mapper_country_city_extraction (place : RawPlace) (hint : String) :
    (map_place_to_attraction place hint).country =
      (if hint = "" then first_tagged country_tagged place.address_components else hint) ∧
    (map_place_to_attraction place hint).city =
      first_tagged city_tagged place.address_components := by
  constructor
  · by_cases h : hint = ""
    · rw [if_pos h]
      subst h
      exact extract_country_none place.address_components ""
    · rw [if_neg h]
      exact extract_country_acc place.address_components hint "" h
  · exact extract_city_none place.address_components hint

/-- Counterexample to claim C6 as stated: the type tag "art" is a substring
of the tourist vocabulary word "art_gallery" (reverse containment), yet the
affinity score of an attraction with types `["art"]` is 0 — reverse
containment does not count as a match. -/
theorem affinity_reverse_containment_cex :
    typeAffinity touristTypes ["art"] = 0 ∧
    substr "art" "art_gallery" = true ∧
    "art_gallery" ∈ touristTypes := by
  refine ⟨by decide, by decide, by decide⟩

/-- Claim C6 (amended): in the profile affinity score a vocabulary word `tt`
matches a type tag `t` exactly when `tt` is a substring of the lowercased
`t`; the score is the number of tags with at least one such match, and it is
positive precisely when some tag contains some vocabulary word — containment
in the other direction alone does not qualify. -/
theorem affinity_substring_matching (vocab types : List String) :
    typeAffinity vocab types =
      (types.filter (fun t => decide (∃ tt ∈ vocab, substr tt (toLowerStr t) = true))).length ∧
    (0 < typeAffinity vocab types ↔
      ∃ t ∈ types, ∃ tt ∈ vocab, substr tt (toLowerStr t) = true) := by
  constructor
  · unfold typeAffinity
    congr 1
    apply List.filter_congr
    intro t _
    rw [Bool.eq_iff_iff]
    simp [List.any_eq_true]
  · unfold typeAffinity
    rw [← List.countP_eq_length_filter, List.countP_pos_iff]
    constructor
    · rintro ⟨t, ht, hp⟩
      exact ⟨t, ht, by simpa [List.any_eq_true] using hp⟩
    · rintro ⟨t, ht, tt, htt, hs⟩
      exact ⟨t, ht, by simp [List.any_eq_true]; exact ⟨tt, htt, hs⟩⟩

/-- Claim C7: a failure of either data source is absorbed as an empty
contribution.  A provider error makes the coordinates branch behave exactly
as a provider returning no results; a store error behaves exactly as an
empty store; a provider success with a failing store yields precisely the
provider's mapped results; both failing yield the empty list.  The branch is
a total function — no source failure escapes to the caller. -/
theorem source_failure_absorbed (eP eS : String) (g : List RawPlace)
    (provider store : Except String (List RawPlace)) (hint : String) :
    location_branch (.error eP) store hint = location_branch (.ok []) store hint ∧
    location_branch provider (.error eS) hint = location_branch provider (.ok []) hint ∧
    location_branch (.ok g) (.error eS) hint =
      g.map (fun p => map_place_to_attraction p hint) ∧
    location_branch (.error eP) (.error eS) hint = [] := by
  refine ⟨rfl, rfl, ?_, rfl⟩
  simp [location_branch, merge_results, search_places_recover, db_results_recover]

/-- Claim C8: with an active minimum-rating threshold (`> 0`) exactly the
results with `rating >= threshold` are kept, and with an active price-level
ceiling (`< 200`) exactly the results whose `price_level` is at most the
ceiling or absent are kept — both as order-preserving selections; in
particular, price levels `[0, 1, 2, None, 3]` with ceiling 1 filter to
`[0, 1, None]` in order. -/
theorem rating_price_filter_semantics (r : ℚ) (c : Int) (l : List Attraction)
    (h1 : 0 < r) (h2 : c < 200) :
    filter_min_rating r l = l.filter (fun p => decide (r ≤ p.rating)) ∧
    filter_price_level c l =
      l.filter (fun p => match p.price_level with
        | some v => decide (v ≤ c)
        | none => true) ∧
    filter_price_level 1 priceExample = [pl0, pl1, plNone] := by
  refine ⟨?_, ?_, by decide⟩
  · rw [filter_min_rating, if_pos h1]
  · rw [filter_price_level, if_pos h2]

/-- Witness for `rating_price_filter_semantics` at threshold 1 and ceiling 1
on the price example list. -/
theorem rating_price_filter_semantics_witness :
    ((0 : ℚ) < 1 ∧ (1 : Int) < 200) ∧
    (filter_min_rating 1 priceExample =
        priceExample.filter (fun p => decide ((1 : ℚ) ≤ p.rating)) ∧
      filter_price_level 1 priceExample =
        priceExample.filter (fun p => match p.price_level with
          | some v => decide (v ≤ (1 : Int))
          | none => true) ∧
      filter_price_level 1 priceExample = [pl0, pl1, plNone]) :=
  ⟨⟨by norm_num, by norm_num⟩,
    rating_price_filter_semantics 1 1 priceExample (by norm_num) (by norm_num)⟩

/-- Counterexample to claim C1 as stated: with an empty provider list and
eleven local records with distinct non-empty place ids — none of which
occurs in the provider list — the merge appends only the first ten local
records; the eleventh is dropped even though its `place_id` does not occur
in the provider results. -/
theorem merge_drops_eleventh_cex :
    merge_results [] elevenPlaces = elevenPlaces.take 10 ∧
    merge_results [] elevenPlaces ≠ elevenPlaces ∧
    elevenPlaces.length = 11 := by
  refine ⟨by decide, by decide, by decide⟩

/-- Claim C1 (amended): the merged sequence is the provider sequence `A`
followed, in original order, by those of the first ten local records
(`db_results[:10]`) whose `place_id` is not among the non-empty place ids of
`A`; local records beyond the tenth are not considered.  For a non-empty
`place_id` occurring exactly once in `A`, the merged sequence contains
exactly one record with that id — `A`'s version. -/
theorem merge_dedup_invariant (A B : List RawPlace) (pid : String)
    (hpid : pid ≠ "")
    (hA : (A.filter (fun r => r.place_id == pid)).length = 1) :
    (merge_results A B).take A.length = A ∧
    (merge_results A B).drop A.length =
      (B.take 10).filter (fun d => !(google_ids A).contains d.place_id) ∧
    (merge_results A B).filter (fun r => r.place_id == pid) =
      A.filter (fun r => r.place_id == pid) ∧
    ((merge_results A B).filter (fun r => r.place_id == pid)).length = 1 := by
  have hm : merge_results A B =
      A ++ (B.take 10).filter (fun d => !(google_ids A).contains d.place_id) := rfl
  have hmem : ∃ r ∈ A, r.place_id = pid := by
    have hpos : 0 < (A.filter (fun r => r.place_id == pid)).length := by omega
    obtain ⟨r, hr⟩ := List.length_pos_iff_exists_mem.mp hpos
    obtain ⟨hrA, hrp⟩ := List.mem_filter.mp hr
    exact ⟨r, hrA, by simpa using hrp⟩
  have hpid_mem : ((google_ids A).contains pid) = true := by
    obtain ⟨r, hrA, hrp⟩ := hmem
    apply List.contains_iff_exists_mem_beq.mpr
    refine ⟨pid, ?_, by simp⟩
    unfold google_ids
    apply List.mem_map.mpr
    refine ⟨r, List.mem_filter.mpr ⟨hrA, ?_⟩, hrp⟩
    simpa [hrp] using hpid
  have hfilterB : ((B.take 10).filter
      (fun d => !(google_ids A).contains d.place_id)).filter
        (fun r => r.place_id == pid) = [] := by
    apply List.filter_eq_nil_iff.mpr
    intro d hd hdp
    obtain ⟨_, hdpred⟩ := List.mem_filter.mp hd
    have hdpid : d.place_id = pid := by simpa using hdp
    rw [hdpid, hpid_mem] at hdpred
    simp at hdpred
  refine ⟨?_, ?_, ?_, ?_⟩
  · rw [hm]; exact List.take_left A _
  · rw [hm]; exact List.drop_left A _
  · rw [hm, List.filter_append, hfilterB, List.append_nil]
  · rw [hm, List.filter_append, hfilterB, List.append_nil, hA]

/-- Witness for `merge_dedup_invariant`: the provider holds one record with
id "x", the store holds a different record with id "x" and one with id "y". -/
theorem merge_dedup_invariant_witness :
    ("x" ≠ "" ∧
      (([⟨"x", "google", "", "", [], [], 0, 0, none⟩] : List RawPlace).filter
        (fun r => r.place_id == "x")).length = 1) ∧
    ((merge_results [⟨"x", "google", "", "", [], [], 0, 0, none⟩]
        [⟨"x", "mongo", "", "", [], [], 0, 0, none⟩,
          ⟨"y", "", "", "", [], [], 0, 0, none⟩]).take 1 =
        [⟨"x", "google", "", "", [], [], 0, 0, none⟩] ∧
      (merge_results [⟨"x", "google", "", "", [], [], 0, 0, none⟩]
        [⟨"x", "mongo", "", "", [], [], 0, 0, none⟩,
          ⟨"y", "", "", "", [], [], 0, 0, none⟩]).drop 1 =
        ([⟨"x", "mongo", "", "", [], [], 0, 0, none⟩,
          ⟨"y", "", "", "", [], [], 0, 0, none⟩].take 10).filter
          (fun d => !(google_ids [⟨"x", "google", "", "", [], [], 0, 0, none⟩]).contains
            d.place_id) ∧
      (merge_results [⟨"x", "google", "", "", [], [], 0, 0, none⟩]
        [⟨"x", "mongo", "", "", [], [], 0, 0, none⟩,
          ⟨"y", "", "", "", [], [], 0, 0, none⟩]).filter (fun r => r.place_id == "x") =
        ([⟨"x", "google", "", "", [], [], 0, 0, none⟩] : List RawPlace).filter
          (fun r => r.place_id == "x") ∧
      ((merge_results [⟨"x", "google", "", "", [], [], 0, 0, none⟩]
        [⟨"x", "mongo", "", "", [], [], 0, 0, none⟩,
          ⟨"y", "", "", "", [], [], 0, 0, none⟩]).filter
          (fun r => r.place_id == "x")).length = 1) :=
  ⟨⟨by decide, by decide⟩,
    merge_dedup_invariant [⟨"x", "google", "", "", [], [], 0, 0, none⟩]
      [⟨"x", "mongo", "", "", [], [], 0, 0, none⟩,
        ⟨"y", "", "", "", [], [], 0, 0, none⟩] "x" (by decide) (by decide)⟩

theorem nodupKeys_cache_set {β : Type} (c : CacheState β) (k : String) (v : β × Int)
    (h : NodupKeys c) : NodupKeys (cache_set c k v) := by
  unfold NodupKeys cache_set
  by_cases hany : c.any (fun p => p.1 == k)
  · rw [if_pos hany]
    have heq : (c.map (fun p => if p.1 == k then (k, v) else p)).map (fun p => p.1) =
        c.map (fun p => p.1) := by
      rw [List.map_map]
      apply List.map_congr_left
      intro p _
      by_cases hpk : p.1 == k
      · simp only [Function.comp, hpk, if_true]
        exact (beq_iff_eq.mp hpk).symm
      · simp [Function.comp, hpk]
    rw [heq]
    exact h
  · rw [if_neg hany]
    rw [List.map_append]
    refine List.Nodup.append h (List.nodup_singleton k) ?_
    intro a ha hb
    obtain ⟨p, hp, hpa⟩ := List.mem_map.mp ha
    have hak : a = k := by simpa using hb
    apply hany
    apply List.any_eq_true.mpr
    exact ⟨p, hp, by simp [hpa, hak]⟩

theorem length_cache_evict {β : Type} (c : CacheState β) (hnd : NodupKeys c)
    (hlen : 50 < c.length) : (cache_evict c).length = 50 := by
  show (c.filter (fun p =>
    !((((List.insertionSort timeRel c).take (c.length - 50)).map (fun p => p.1)).contains
      p.1))).length = 50
  set s := List.insertionSort timeRel c with hs
  set m := c.length - 50 with hm
  set doomed := (s.take m).map (fun p => p.1) with hdoomed
  have hperm : s.Perm c := List.perm_insertionSort timeRel c
  have hsnd : (s.map (fun p => p.1)).Nodup := (hperm.map _).nodup_iff.mpr hnd
  have hfilter_perm : (c.filter (fun p => !doomed.contains p.1)).Perm
      (s.filter (fun p => !doomed.contains p.1)) := (hperm.symm).filter _
  have hsplit : s = s.take m ++ s.drop m := (List.take_append_drop m s).symm
  have htake : (s.take m).filter (fun p => !doomed.contains p.1) = [] := by
    apply List.filter_eq_nil_iff.mpr
    intro p hp hpred
    have hmem : p.1 ∈ doomed := List.mem_map.mpr ⟨p, hp, rfl⟩
    have hcont : doomed.contains p.1 = true :=
      List.contains_iff_exists_mem_beq.mpr ⟨p.1, hmem, by simp⟩
    simp at hpred
    exact hpred hmem
  have hdropmem : ∀ p ∈ s.drop m, (doomed.contains p.1) = false := by
    intro p hp
    cases hdc : doomed.contains p.1 with
    | false => rfl
    | true =>
      exfalso
      have hmem : p.1 ∈ doomed := by
        obtain ⟨a, ha, hbeq⟩ := List.contains_iff_exists_mem_beq.mp hdc
        rw [beq_iff_eq.mp hbeq]
        exact ha
      obtain ⟨q, hq, hqeq⟩ := List.mem_map.mp hmem
      have hmapsplit : s.map (fun p => p.1) =
          (s.take m).map (fun p => p.1) ++ (s.drop m).map (fun p => p.1) := by
        conv_lhs => rw [hsplit]
        rw [List.map_append]
      rw [hmapsplit] at hsnd
      have hdisj := (List.nodup_append.mp hsnd).2.2
      exact hdisj (List.mem_map.mpr ⟨q, hq, hqeq⟩) (List.mem_map.mpr ⟨p, hp, rfl⟩)
  have hdrop : (s.drop m).filter (fun p => !doomed.contains p.1) = s.drop m := by
    apply List.filter_eq_self.mpr
    intro p hp
    rw [hdropmem p hp]
    rfl
  calc (c.filter (fun p => !doomed.contains p.1)).length
      = (s.filter (fun p => !doomed.contains p.1)).length := hfilter_perm.length_eq
    _ = ((s.take m ++ s.drop m).filter (fun p => !doomed.contains p.1)).length := by
        rw [← hsplit]
    _ = (s.drop m).length := by rw [List.filter_append, htake, hdrop, List.nil_append]
    _ = s.length - m := List.length_drop m s
    _ = c.length - m := by rw [hperm.length_eq]
    _ = 50 := by omega

set_option maxRecDepth 40000 in
/-- Counterexample to claim C3 as stated: storing 60 distinct fingerprints
through the early-return store path (the bare assignment of
attractions_service.py lines 231/237/244/306, which performs no eviction)
leaves 60 entries — the 50-entry bound does not hold for every orchestrator
path. -/
theorem cache_capacity_plain_path_cex :
    plainScenario.length = 60 ∧ ¬ (plainScenario.length ≤ 50) := by
  have h : plainScenario.length = 60 := by rfl
  exact ⟨h, by omega⟩

set_option maxRecDepth 100000 in
/-- Claim C3 (amended): only the main (post-ranking) store path evicts.
There, after every store the cache holds `min` of its post-assignment size
and 50 — whenever the assignment leaves it above 50, the oldest entries by
stored-at time are deleted so that exactly 50 remain; in particular, 60
distinct fingerprints stored at increasing times through this path leave
exactly the 50 newest (`k10`..`k59`), the 10 oldest being evicted.  Stores on
the early-return paths do not evict, so the bound does not hold regardless of
path. -/
theorem cache_capacity_evicting_path {β : Type} (c : CacheState β) (k : String)
    (v : β × Int) (h : NodupKeys c) :
    (cache_store_evict c k v).length = min (cache_set c k v).length 50 ∧
    evictScenario.length = 50 ∧
    evictScenario.map (fun p => p.1) = (List.range 50).map (fun i => scenKey (i + 10)) := by
  refine ⟨?_, by rfl, by rfl⟩
  unfold cache_store_evict
  by_cases hlen : 50 < (cache_set c k v).length
  · rw [if_pos hlen, length_cache_evict _ (nodupKeys_cache_set c k v h) hlen]
    omega
  · rw [if_neg hlen]
    omega

set_option maxRecDepth 100000 in
/-- Witness for `cache_capacity_evicting_path` at the empty cache. -/
theorem cache_capacity_evicting_path_witness :
    NodupKeys ([] : CacheState Unit) ∧
    ((cache_store_evict ([] : CacheState Unit) "a" ((), 0)).length =
        min (cache_set ([] : CacheState Unit) "a" ((), 0)).length 50 ∧
      evictScenario.length = 50 ∧
      evictScenario.map (fun p => p.1) =
        (List.range 50).map (fun i => scenKey (i + 10))) :=
  ⟨List.nodup_nil, cache_capacity_evicting_path [] "a" ((), 0) List.nodup_nil⟩

theorem sorted_perm_eq_of_nodup_keys {α κ : Type} [LinearOrder κ] (key : α → κ)
    (r : α → α → Prop) (hiff : ∀ a b, r a b ↔ key a ≤ key b) :
    ∀ (l₁ l₂ : List α), l₁.Perm l₂ → List.Sorted r l₁ → List.Sorted r l₂ →
      (l₁.map key).Nodup → l₁ = l₂ := by
  intro l₁
  induction l₁ with
  | nil =>
    intro l₂ h _ _ _
    exact (List.Perm.eq_nil h.symm).symm
  | cons a t₁ ih =>
    intro l₂ h s₁ s₂ nd
    cases l₂ with
    | nil => exact absurd h.eq_nil (List.cons_ne_nil a t₁)
    | cons b t₂ =>
      have hab : a = b := by
        have hma : a ∈ b :: t₂ := h.mem_iff.mp (List.mem_cons_self a t₁)
        rcases List.mem_cons.mp hma with hab | hat2
        · exact hab
        · have hmb : b ∈ a :: t₁ := h.symm.mem_iff.mp (List.mem_cons_self b t₂)
          rcases List.mem_cons.mp hmb with hba | hbt1
          · exact hba.symm
          · exfalso
            have h1 : key a ≤ key b := (hiff a b).mp (List.rel_of_sorted_cons s₁ b hbt1)
            have h2 : key b ≤ key a := (hiff b a).mp (List.rel_of_sorted_cons s₂ a hat2)
            have hkey : key b = key a := le_antisymm h2 h1
            have hnotin : key a ∉ t₁.map key := by
              simp only [List.map_cons, List.nodup_cons] at nd
              exact nd.1
            exact hnotin (hkey ▸ List.mem_map.mpr ⟨b, hbt1, rfl⟩)
      subst hab
      have ht : t₁.Perm t₂ := h.cons_inv
      have heq : t₁ = t₂ := by
        apply ih t₂ ht s₁.of_cons s₂.of_cons
        simp only [List.map_cons, List.nodup_cons] at nd
        exact nd.2
      rw [heq]

set_option maxRecDepth 100000 in
/-- Counterexample to claim C4 as stated: the raw maps with the minimum
rating under the key `min_rating` versus its alias `minRating` normalize to
the same query parameters, yet their cache keys differ — the fingerprint is
computed over the raw map, not the normalized struct. -/
theorem fingerprint_not_normalized_cex :
    normalizeParams [("min_rating", JValue.int 4)] =
      normalizeParams [("minRating", JValue.int 4)] ∧
    generate_cache_key [("min_rating", JValue.int 4)] ≠
      generate_cache_key [("minRating", JValue.int 4)] := by
  refine ⟨by rfl, by decide⟩

/-- Claim C4 (amended): the cache key is the MD5 of the sorted-key JSON
rendering of the raw parameter map.  It is therefore invariant under the
order of the keys — any two maps with the same key-value pairs (distinct
keys) in any order fingerprint identically — but maps that merely normalize
to the same query parameters (alias keys, string-versus-number values) can
fingerprint differently. -/
theorem fingerprint_key_order_invariant (p q : Params) (h1 : p.Perm q)
    (h2 : (p.map (fun kv => kv.1)).Nodup) :
    generate_cache_key p = generate_cache_key q := by
  have hsorted : List.insertionSort keyRel p = List.insertionSort keyRel q := by
    apply sorted_perm_eq_of_nodup_keys (fun kv : String × JValue => kv.1) keyRel
      (fun _ _ => Iff.rfl)
    · exact (List.perm_insertionSort keyRel p).trans
        (h1.trans (List.perm_insertionSort keyRel q).symm)
    · exact List.sorted_insertionSort keyRel p
    · exact List.sorted_insertionSort keyRel q
    · exact ((List.perm_insertionSort keyRel p).map _).nodup_iff.mpr h2
  unfold generate_cache_key json_dumps_sorted
  rw [hsorted]

/-- Witness for `fingerprint_key_order_invariant` on a two-key map and its
reversal. -/
theorem fingerprint_key_order_invariant_witness :
    (([("a", JValue.int 1), ("b", JValue.int 2)] : Params).Perm
        [("b", JValue.int 2), ("a", JValue.int 1)] ∧
      (([("a", JValue.int 1), ("b", JValue.int 2)] : Params).map
        (fun kv => kv.1)).Nodup) ∧
    generate_cache_key [("a", JValue.int 1), ("b", JValue.int 2)] =
      generate_cache_key [("b", JValue.int 2), ("a", JValue.int 1)] :=
  ⟨⟨List.Perm.swap ("b", JValue.int 2) ("a", JValue.int 1) [], by decide⟩,
    fingerprint_key_order_invariant [("a", JValue.int 1), ("b", JValue.int 2)]
      [("b", JValue.int 2), ("a", JValue.int 1)]
      (List.Perm.swap ("b", JValue.int 2) ("a", JValue.int 1) []) (by decide)⟩
